import Mathlib

/-!
# teensy_interface: the UDP bridge component

A shallow embedding of `TeensyInterfaceComponent` (teensy_interface_component.hpp / .cpp):
the inbound handler `udpCb`, the outbound handler `subServosInputCb`, and the state both share.

Conventions of the embedding.
* A byte is a `Fin 256`. A 4-byte scalar (`float`, `uint32_t`) is identified with its object
  representation read as a little-endian 32-bit word, which is what `memcpy` and
  `reinterpret_cast` move on the little-endian hosts the node runs on.
* Arithmetic on `double` and the types declared outside the repository (ROS message field
  types, `tf2::Quaternion::setRPY`) are taken as a parameter, `Numerics D`.
* The handlers are functions from the state and their inputs (message, clock value) to the new
  state and everything they hand to a collaborator (publisher, broadcaster, transport, logger).
-/

namespace atl

/-! ## Bytes, words and floats -/

/-- One octet of a datagram, a `uint8_t`. -/
abbrev Byte := Fin 256

/-- The object representation of a 4-byte scalar, read as a little-endian word. -/
abbrev Word32 := Fin 4294967296

/-- A C++ `float`, identified with its 32-bit object representation. -/
structure F32 where
  bits : Word32
deriving DecidableEq, Repr

/-- The float `0.0` (all bits clear). -/
def F32.zero : F32 := ⟨0⟩

/-- The float `1.0` (0x3F800000). -/
def F32.one : F32 := ⟨1065353216⟩

/-- Four consecutive bytes of memory read as one 4-byte scalar (`memcpy(&value, p, 4)`). -/
def wordOfBytes (b0 b1 b2 b3 : Byte) : Word32 :=
  ⟨b0.val + 256 * b1.val + 65536 * b2.val + 16777216 * b3.val, by omega⟩

/-- The four bytes `memcpy(p, &value, 4)` writes for a 4-byte scalar, lowest address first. -/
def bytesOfWord (w : Word32) : List Byte :=
  [⟨w.val % 256, by omega⟩, ⟨w.val / 256 % 256, by omega⟩,
   ⟨w.val / 65536 % 256, by omega⟩, ⟨w.val / 16777216 % 256, by omega⟩]

/-- The four bytes of a float in memory. -/
def bytesOfFloat (f : F32) : List Byte := bytesOfWord f.bits

/-- Writing four bytes into a buffer at byte offset `oft`: `memcpy(u.data() + oft, &v, 4)`. -/
def memcpyAt (u : List Byte) (oft : Nat) (src : List Byte) : List Byte :=
  u.take oft ++ src ++ u.drop (oft + src.length)

/-! ## Numerics and message types declared outside the repository -/

/-- A `geometry_msgs::msg::Vector3`. -/
structure Vector3 (D : Type) where
  x : D
  y : D
  z : D
deriving DecidableEq, Repr

/-- A `geometry_msgs::msg::Quaternion` (also the four components of a `tf2::Quaternion`). -/
structure Quaternion (D : Type) where
  x : D
  y : D
  z : D
  w : D
deriving DecidableEq, Repr

/-- The arithmetic the handlers use without defining it. `D` is the scalar type of the ROS
message fields (`double`); the operations are those of the compiler and of tf2:
* `lit q`: the `double` a decimal constant of the source denotes;
* `ofFloat`: the implicit conversion `float → double`;
* `toFloat`: the implicit conversion of a servo delta to `float`;
* `neg`: unary minus on `double`;
* `setRPY r p y`: the components `x(), y(), z(), w()` of a `tf2::Quaternion` after
  `setRPY(r, p, y)`. -/
structure Numerics (D : Type) where
  lit : ℚ → D
  ofFloat : F32 → D
  toFloat : D → F32
  neg : D → D
  setRPY : D → D → D → Quaternion D

/-- The fields of `sensor_msgs::msg::Imu` the handler assigns. -/
structure Imu (D : Type) where
  stamp : Nat
  linear_acceleration : Vector3 D
  angular_velocity : Vector3 D
  orientation : Quaternion D
deriving DecidableEq, Repr

/-- The fields of `atl_msgs::msg::Depth` the handler assigns. -/
structure Depth (D : Type) where
  stamp : Nat
  depth : D
  temperature : D
deriving DecidableEq, Repr

/-- The fields of `atl_msgs::msg::Leak` the handler assigns. -/
structure Leak (D : Type) where
  stamp : Nat
  leak : D
deriving DecidableEq, Repr

/-- A `geometry_msgs::msg::TransformStamped`. -/
structure TransformStamped (D : Type) where
  stamp : Nat
  frame_id : String
  child_frame_id : String
  translation : Vector3 D
  rotation : Quaternion D
deriving DecidableEq, Repr

/-- The transform broadcasters the handler sends through. -/
inductive Broadcaster where
  | tf_broadBoat_
  | tf_broadBody_
deriving DecidableEq, Repr

/-- What `udpCb` hands to the message and transform sink, one constructor per call. -/
inductive Emission (D : Type) where
  | pubImu (m : Imu D)
  | pubDepth (m : Depth D)
  | pubLeak (m : Leak D)
  | sendTransform (via : Broadcaster) (t : TransformStamped D)
deriving DecidableEq, Repr

/-- What the handler reports to the operator: the `RCLCPP_ERROR` of a length mismatch
(expected and received length) and the `RCLCPP_INFO` lines with the floats they print. -/
inductive LogRecord where
  | error (expected received : Nat)
  | info (label : String) (values : List F32)
deriving DecidableEq, Repr

/-- An inbound datagram, `UDPServer::UDPMsg`: the handler uses `msg.data.size()` and
`msg.data.data()`. -/
structure UDPMsg where
  data : List Byte
deriving DecidableEq, Repr

/-- One entry of `atl_msgs::msg::ServosInput::inputs`; the handler reads its `delta`. -/
structure ServoInput (D : Type) where
  delta : D

/-- An upstream command, `atl_msgs::msg::ServosInput`. The type is declared outside the
repository; the handler reads `inputs[0]` to `inputs[3]`, so the message is represented by
its indexing operator. -/
structure ServosInput (D : Type) where
  inputs : Nat → ServoInput D

/-! ## Parameters and state -/

/-- The `TeensyUdpParams` of the header. -/
structure TeensyUdpParams where
  teensy_ip : String := "192.168.2.3"
  send_port : Nat := 1560
  receive_port : Nat := 1561
  receive_buffer_size : Nat := 1024
deriving DecidableEq, Repr

/-- The `TeensyInterfaceParams` of the header. -/
structure TeensyInterfaceParams where
  n_servos : Nat := 2
  udp : TeensyUdpParams := {}
deriving DecidableEq, Repr

/-- The state variables of `TeensyInterfaceComponent` (the collaborators `udp_`, the
publishers and the broadcasters appear as the outputs of the handlers). -/
structure Component where
  t0_ : Nat
  iter_ : Nat
  sync_ : Bool
  prm_ : TeensyInterfaceParams
  task_ : Nat
  ctrlMode_ : Nat
  servoInput1_ : F32
  servoInput2_ : F32
  servoInput3_ : F32
  servoInput4_ : F32
  servoInput5_ : F32
  servoFeedback1_ : F32
  servoFeedback2_ : F32
  servoFeedback3_ : F32
  servoFeedback4_ : F32
  servoFeedback5_ : F32
deriving DecidableEq, Repr

/-- The members the class declares without an initialiser and the constructor never assigns:
their values after construction are whatever the memory held. -/
structure Indeterminate where
  t0_ : Nat
  servoInput : Fin 5 → F32
  servoFeedback : Fin 5 → F32

/-- The component right after its constructor: the default member initialisers of the header
(`iter_ = 0`, `sync_ = true`, `task_ = 0`, `ctrlMode_ = 0`, default parameters) and
indeterminate values for the rest. -/
def Component.constructed (u : Indeterminate) : Component :=
  { t0_ := u.t0_, iter_ := 0, sync_ := true, prm_ := {}, task_ := 0, ctrlMode_ := 0,
    servoInput1_ := u.servoInput 0, servoInput2_ := u.servoInput 1,
    servoInput3_ := u.servoInput 2, servoInput4_ := u.servoInput 3,
    servoInput5_ := u.servoInput 4,
    servoFeedback1_ := u.servoFeedback 0, servoFeedback2_ := u.servoFeedback 1,
    servoFeedback3_ := u.servoFeedback 2, servoFeedback4_ := u.servoFeedback 3,
    servoFeedback5_ := u.servoFeedback 4 }

/-! ## The inbound handler `udpCb` -/

/-- The constant `msgLen` of `udpCb`: Lin_acc(3) + Ang_vel(3) + Quat(4) + depth(1) + temp(1)
+ leak(1) floats. -/
def msgLen : Nat := (3 + 3 + 4 + 1 + 1 + 1) * 4

/-- The byte at `msg.data.data() + i`. Inside the vector it is the stored byte; at and past
`msg.data.size()` the vector holds nothing and the read returns whatever follows the buffer
in memory, `past i`. -/
def byteAt (msg : UDPMsg) (past : Nat → Byte) (i : Nat) : Byte :=
  if h : i < msg.data.length then msg.data.get ⟨i, h⟩ else past i

/-- The float at `msg.data.data() + offset`, as both `memcpy(&value, ..., sizeof(float))` and
`*reinterpret_cast<const float *>(...)` read it. -/
def loadFloat (msg : UDPMsg) (past : Nat → Byte) (offset : Nat) : F32 :=
  ⟨wordOfBytes (byteAt msg past offset) (byteAt msg past (offset + 1))
    (byteAt msg past (offset + 2)) (byteAt msg past (offset + 3))⟩

/-- The indices of the four bytes a float load at `offset` touches. -/
def span4 (offset : Nat) : List Nat := [offset, offset + 1, offset + 2, offset + 3]

/-- The variable `offset` the lambda `read_float` captures by reference, together with the
indices of the bytes read so far. -/
structure Reader where
  offset : Nat
  reads : List Nat
deriving DecidableEq, Repr

/-- The lambda `read_float`: load the float at `offset`, then `offset += sizeof(float)`. -/
def read_float (msg : UDPMsg) (past : Nat → Byte) (r : Reader) : F32 × Reader :=
  (loadFloat msg past r.offset, { offset := r.offset + 4, reads := r.reads ++ span4 r.offset })

/-- The loop `for (int i = 0; i < n; ++i) arr[i] = read_float();`. -/
def read_floats (msg : UDPMsg) (past : Nat → Byte) : Nat → Reader → List F32 × Reader
  | 0, r => ([], r)
  | n + 1, r =>
    let a := read_float msg past r
    let b := read_floats msg past n a.2
    (a.1 :: b.1, b.2)

/-- The local variables `udpCb` fills through `read_float` (lines 93 to 140). -/
structure Locals where
  lin_acc : List F32
  ang_vel : List F32
  quat : List F32
  depth : F32
  temp : F32
  leak : F32
  additional_data : List F32
  reader : Reader
deriving DecidableEq, Repr

/-- The first pass of `udpCb` over the buffer: thirteen telemetry floats, then the five floats
of `additional_data`. -/
def readLocals (msg : UDPMsg) (past : Nat → Byte) : Locals :=
  let r0 : Reader := { offset := 0, reads := [] }
  let lin_acc := read_floats msg past 3 r0
  let ang_vel := read_floats msg past 3 lin_acc.2
  let quat := read_floats msg past 4 ang_vel.2
  let depth := read_float msg past quat.2
  let temp := read_float msg past depth.2
  let leak := read_float msg past temp.2
  let additional_data := read_floats msg past 5 leak.2
  { lin_acc := lin_acc.1, ang_vel := ang_vel.1, quat := quat.1, depth := depth.1,
    temp := temp.1, leak := leak.1, additional_data := additional_data.1,
    reader := additional_data.2 }

/-- The `RCLCPP_INFO` lines of the first pass. -/
def Locals.log (l : Locals) : List LogRecord :=
  [LogRecord.info "Linear Acceleration" l.lin_acc, LogRecord.info "Angular Velocity" l.ang_vel,
   LogRecord.info "Quaternion" l.quat, LogRecord.info "Depth" [l.depth],
   LogRecord.info "Temperature" [l.temp], LogRecord.info "Leak" [l.leak],
   LogRecord.info "Additional Data" l.additional_data]

/-- The outcome of one call of `udpCb`: the state afterwards, the exception thrown (if any),
the log lines, the messages and transforms handed to the sink in call order, and the indices
of all bytes read through `msg.data.data()`. -/
structure UdpCbResult (D : Type) where
  state : Component
  thrown : Option String
  log : List LogRecord
  emitted : List (Emission D)
  reads : List Nat

/-- The message of the `std::runtime_error` thrown on a length mismatch. -/
def incorrectSize : String := "Teensy UDP message has incorrect size."

/-- The inbound handler `TeensyInterfaceComponent::udpCb`; `tNow` is the value of `now()`. -/
def udpCb {D : Type} (N : Numerics D) (s : Component) (msg : UDPMsg) (past : Nat → Byte)
    (tNow : Nat) : UdpCbResult D :=
  if msg.data.length ≠ msgLen then
    { state := s, thrown := some incorrectSize,
      log := [LogRecord.error msgLen msg.data.length], emitted := [], reads := [] }
  else
    let l := readLocals msg past
    -- IMU Data
    let oft := 0
    let lax := N.ofFloat (loadFloat msg past oft)
    let rd := l.reader.reads ++ span4 oft
    let oft := oft + 4
    let lay := N.ofFloat (loadFloat msg past oft)
    let rd := rd ++ span4 oft
    let oft := oft + 4
    let laz := N.ofFloat (loadFloat msg past oft)
    let rd := rd ++ span4 oft
    let oft := oft + 4
    let avx := N.ofFloat (loadFloat msg past oft)
    let rd := rd ++ span4 oft
    let oft := oft + 4
    let avy := N.ofFloat (loadFloat msg past oft)
    let rd := rd ++ span4 oft
    let oft := oft + 4
    let avz := N.ofFloat (loadFloat msg past oft)
    let rd := rd ++ span4 oft
    let oft := oft + 4
    let ox := N.ofFloat (loadFloat msg past oft)
    let rd := rd ++ span4 oft
    let oft := oft + 4
    let oy := N.ofFloat (loadFloat msg past oft)
    let rd := rd ++ span4 oft
    let oft := oft + 4
    let oz := N.ofFloat (loadFloat msg past oft)
    let rd := rd ++ span4 oft
    let oft := oft + 4
    let ow := N.ofFloat (loadFloat msg past oft)
    let rd := rd ++ span4 oft
    let oft := oft + 4
    let imuMsg : Imu D :=
      { stamp := tNow, linear_acceleration := ⟨lax, lay, laz⟩,
        angular_velocity := ⟨avx, avy, avz⟩, orientation := ⟨ox, oy, oz, ow⟩ }
    -- Depth and Temperature
    let dep := N.ofFloat (loadFloat msg past oft)
    let rd := rd ++ span4 oft
    let oft := oft + 4
    let tmp := N.ofFloat (loadFloat msg past oft)
    let rd := rd ++ span4 oft
    let oft := oft + 4
    let depthMsg : Depth D := { stamp := tNow, depth := dep, temperature := tmp }
    -- Leak sensor
    let lk := N.ofFloat (loadFloat msg past oft)
    let rd := rd ++ span4 oft
    let leakMsg : Leak D := { stamp := tNow, leak := lk }
    -- Transforms
    let t_boat : TransformStamped D :=
      { stamp := tNow, frame_id := "world", child_frame_id := "boat",
        translation := ⟨N.lit 0.0, N.lit 0.0, N.lit 0.25⟩,
        rotation := N.setRPY (N.lit 0) (N.lit 0) (N.lit 0) }
    let t_body : TransformStamped D :=
      { stamp := tNow, frame_id := "boat", child_frame_id := "paravane",
        translation := ⟨N.lit (-5.0), N.lit 0.0, N.neg depthMsg.depth⟩,
        rotation := ⟨imuMsg.orientation.x, imuMsg.orientation.y, imuMsg.orientation.z,
          imuMsg.orientation.w⟩ }
    let t_act_w : TransformStamped D :=
      { stamp := tNow, frame_id := "paravane", child_frame_id := "main_wing",
        translation := ⟨N.lit 0.1, N.lit 0.0, N.lit 0.0⟩,
        rotation := N.setRPY (N.lit 0) (N.ofFloat s.servoInput1_) (N.lit 0) }
    let t_act1 : TransformStamped D :=
      { stamp := tNow, frame_id := "paravane", child_frame_id := "actuator1",
        translation := ⟨N.lit (-0.2), N.lit 0.0, N.lit 0.05⟩,
        rotation := N.setRPY (N.lit 0) (N.lit 0) (N.ofFloat s.servoFeedback2_) }
    let t_act2 : TransformStamped D :=
      { stamp := tNow, frame_id := "paravane", child_frame_id := "actuator2",
        translation := ⟨N.lit (-0.2), N.lit 0.02, N.lit (-0.035)⟩,
        rotation := N.setRPY (N.lit 0) (N.lit 0) (N.ofFloat s.servoFeedback3_) }
    let t_act3 : TransformStamped D :=
      { stamp := tNow, frame_id := "paravane", child_frame_id := "actuator3",
        translation := ⟨N.lit (-0.2), N.lit 0.02, N.lit (-0.035)⟩,
        rotation := N.setRPY (N.lit 0) (N.lit 0) (N.ofFloat s.servoFeedback4_) }
    { state := { s with iter_ := (s.iter_ + 1) % 18446744073709551616 },
      thrown := none,
      log := l.log,
      emitted :=
        [Emission.pubImu imuMsg, Emission.pubDepth depthMsg, Emission.pubLeak leakMsg,
         Emission.sendTransform Broadcaster.tf_broadBoat_ t_boat,
         Emission.sendTransform Broadcaster.tf_broadBody_ t_body,
         Emission.sendTransform Broadcaster.tf_broadBody_ t_act_w,
         Emission.sendTransform Broadcaster.tf_broadBody_ t_act1,
         Emission.sendTransform Broadcaster.tf_broadBody_ t_act2,
         Emission.sendTransform Broadcaster.tf_broadBody_ t_act3],
      reads := rd }

/-! ## The outbound handler `subServosInputCb` -/

/-- The file-scope constant `nServos`. -/
def nServos : Nat := 5

/-- The outcome of one call of `subServosInputCb`: the state afterwards and the buffer `u`
passed to `udp_->sendMsg`. -/
structure SubServosInputCbResult where
  state : Component
  sent : List Byte
deriving DecidableEq, Repr

/-- The value of `time_ms`: the clock value converted to `uint64_t`, minus `t0_` in 64-bit
unsigned arithmetic, divided by 1000000 and truncated to `uint32_t`. -/
def time_ms (now_ns t0 : Nat) : Word32 :=
  ⟨((now_ns % 18446744073709551616 + 18446744073709551616 - t0 % 18446744073709551616)
      % 18446744073709551616 / 1000000) % 4294967296, Nat.mod_lt _ (by decide)⟩

/-- The `uint32_t` a `bool` converts to. -/
def wordOfBool (b : Bool) : Word32 := if b then 1 else 0

/-- The outbound handler `TeensyInterfaceComponent::subServosInputCb`; `now_ns` is the value
of `now().nanoseconds()`. -/
def subServosInputCb {D : Type} (N : Numerics D) (s : Component) (now_ns : Nat)
    (msg : ServosInput D) : SubServosInputCbResult :=
  let u : List Byte := List.replicate ((nServos + 2) * 4) 0
  let oft := 0
  -- Timestamp
  let u := memcpyAt u oft (bytesOfWord (time_ms now_ns s.t0_))
  let oft := oft + 4
  -- Servo Inputs
  let s := { s with servoInput1_ := N.toFloat (msg.inputs 0).delta }
  let u := memcpyAt u oft (bytesOfFloat s.servoInput1_)
  let oft := oft + 4
  let s := { s with servoInput2_ := N.toFloat (msg.inputs 1).delta }
  let u := memcpyAt u oft (bytesOfFloat s.servoInput2_)
  let oft := oft + 4
  let s := { s with servoInput3_ := N.toFloat (msg.inputs 2).delta }
  let u := memcpyAt u oft (bytesOfFloat s.servoInput3_)
  let oft := oft + 4
  let s := { s with servoInput4_ := N.toFloat (msg.inputs 3).delta }
  let u := memcpyAt u oft (bytesOfFloat s.servoInput4_)
  let oft := oft + 4
  let s := { s with servoInput5_ := F32.zero }
  let u := memcpyAt u oft (bytesOfFloat s.servoInput5_)
  let oft := oft + 4
  -- Sync byte
  let sync := wordOfBool s.sync_
  let s := { s with sync_ := false }
  let u := memcpyAt u oft (bytesOfWord sync)
  { state := s, sent := u }

/-! ## Parameter validation -/

/-- The method `TeensyUdpParams::check_correctness`: the message of the
`std::invalid_argument` it throws, or nothing. -/
def TeensyUdpParams.check_correctness (p : TeensyUdpParams) : Except String Unit :=
  if p.teensy_ip = "" then
    Except.error "teensy_ip parameter must not be empty."
  else if p.receive_buffer_size = 0 then
    Except.error "receive_buffer_size parameter must be > 0."
  else
    Except.ok ()

/-- The method `TeensyInterfaceParams::check_correctness`. -/
def TeensyInterfaceParams.check_correctness (p : TeensyInterfaceParams) :
    Except String Unit :=
  if p.n_servos < 1 then
    Except.error "n_servos parameter must be > 0."
  else
    p.udp.check_correctness

/-! ## The handlers as sequences of lock operations and member accesses -/

/-- The state variables the two handlers access. -/
inductive Member where
  | t0_
  | iter_
  | sync_
  | servoInput1_
  | servoInput2_
  | servoInput3_
  | servoInput4_
  | servoInput5_
  | servoFeedback1_
  | servoFeedback2_
  | servoFeedback3_
  | servoFeedback4_
  | servoFeedback5_
deriving DecidableEq, Repr

/-- The members both callbacks share as actuator state: the commanded deltas, the feedback
values and the sync flag. -/
def Member.actuatorState : Member → Bool
  | Member.t0_ => false
  | Member.iter_ => false
  | _ => true

/-- What a handler does with the mutex `msgMtx_`, the state variables and its collaborators. -/
inductive Action where
  | lock
  | unlock
  | read (m : Member)
  | write (m : Member)
  | sendMsg
  | publish
  | sendTransform
deriving DecidableEq, Repr

/-- The body of `subServosInputCb` in program order: the `std::lock_guard` on line 319 locks
`msgMtx_` and unlocks it when the function scope ends, after `udp_->sendMsg(u)`. -/
def subServosInputCb_actions : List Action :=
  [Action.lock,
   Action.read Member.t0_,
   Action.write Member.servoInput1_, Action.read Member.servoInput1_,
   Action.write Member.servoInput2_, Action.read Member.servoInput2_,
   Action.write Member.servoInput3_, Action.read Member.servoInput3_,
   Action.write Member.servoInput4_, Action.read Member.servoInput4_,
   Action.write Member.servoInput5_, Action.read Member.servoInput5_,
   Action.read Member.sync_, Action.write Member.sync_,
   Action.sendMsg,
   Action.unlock]

/-- The body of `udpCb` in program order: nothing on a length mismatch (it throws); otherwise
the three publications, the six transforms with the members their rotations read, and
`iter_++`. The function never names `msgMtx_`. -/
def udpCb_actions (msg : UDPMsg) : List Action :=
  if msg.data.length ≠ msgLen then
    []
  else
    [Action.publish, Action.publish, Action.publish,
     Action.sendTransform,
     Action.sendTransform,
     Action.read Member.servoInput1_, Action.sendTransform,
     Action.read Member.servoFeedback2_, Action.sendTransform,
     Action.read Member.servoFeedback3_, Action.sendTransform,
     Action.read Member.servoFeedback4_, Action.sendTransform,
     Action.read Member.iter_, Action.write Member.iter_]

/-- The accesses to actuator state a sequence of actions makes while the mutex is not held;
`held` says whether it is held at the start. -/
def unguarded (held : Bool) : List Action → List Action
  | [] => []
  | Action.lock :: as => unguarded true as
  | Action.unlock :: as => unguarded false as
  | Action.read m :: as =>
    if held || !m.actuatorState then unguarded held as
    else Action.read m :: unguarded held as
  | Action.write m :: as =>
    if held || !m.actuatorState then unguarded held as
    else Action.write m :: unguarded held as
  | _ :: as => unguarded held as

/-- For each `sendMsg` of a sequence of actions, in order, whether the mutex is held when it
is called. -/
def heldAtSend (held : Bool) : List Action → List Bool
  | [] => []
  | Action.lock :: as => heldAtSend true as
  | Action.unlock :: as => heldAtSend false as
  | Action.sendMsg :: as => held :: heldAtSend held as
  | _ :: as => heldAtSend held as

/-- Whether the mutex is held after a sequence of actions. -/
def heldAfter (held : Bool) : List Action → Bool
  | [] => held
  | Action.lock :: as => heldAfter true as
  | Action.unlock :: as => heldAfter false as
  | _ :: as => heldAfter held as

/-! ## Sequences of triggers -/

/-- One callback invocation: an inbound datagram (with the memory that follows its buffer and
the clock value) or an upstream command (with the clock value). -/
inductive Trigger (D : Type) where
  | inbound (msg : UDPMsg) (past : Nat → Byte) (tNow : Nat)
  | outbound (now_ns : Nat) (msg : ServosInput D)

/-- What one callback invocation produced. -/
inductive Output (D : Type) where
  | inbound (r : UdpCbResult D)
  | outbound (r : SubServosInputCbResult)

/-- One callback invocation on the component. An inbound datagram the handler rejects leaves
the component as `udpCb` left it when it threw. -/
def step {D : Type} (N : Numerics D) (s : Component) : Trigger D → Component × Output D
  | Trigger.inbound msg past tNow =>
    let r := udpCb N s msg past tNow
    (r.state, Output.inbound r)
  | Trigger.outbound now_ns msg =>
    let r := subServosInputCb N s now_ns msg
    (r.state, Output.outbound r)

/-- The component driven by a finite sequence of triggers, one after the other: the final
state and the outputs in order. -/
def run {D : Type} (N : Numerics D) : Component → List (Trigger D) → Component × List (Output D)
  | s, [] => (s, [])
  | s, t :: ts =>
    let a := step N s t
    let b := run N a.1 ts
    (b.1, a.2 :: b.2)

/-- The command frames handed to the transport, in order. -/
def frames {D : Type} : List (Output D) → List (List Byte)
  | [] => []
  | Output.inbound _ :: os => frames os
  | Output.outbound r :: os => r.sent :: frames os

/-- The `k`-th 4-byte field of a frame (bytes `4k` to `4k+3`). -/
def field (u : List Byte) (k : Nat) : List Byte := (u.drop (4 * k)).take 4

/-! ## Reading the outputs -/

/-- The thirteen telemetry floats of the first pass, in wire order. -/
def Locals.telemetry (l : Locals) : List F32 :=
  l.lin_acc ++ l.ang_vel ++ l.quat ++ [l.depth, l.temp, l.leak]

/-- The scalar fields `udpCb` assigns in a published message, in assignment order. -/
def Emission.scalars {D : Type} : Emission D → List D
  | Emission.pubImu m =>
    [m.linear_acceleration.x, m.linear_acceleration.y, m.linear_acceleration.z,
     m.angular_velocity.x, m.angular_velocity.y, m.angular_velocity.z,
     m.orientation.x, m.orientation.y, m.orientation.z, m.orientation.w]
  | Emission.pubDepth m => [m.depth, m.temperature]
  | Emission.pubLeak m => [m.leak]
  | Emission.sendTransform _ _ => []

/-- The transforms among the emissions, in order. -/
def transforms {D : Type} : List (Emission D) → List (TransformStamped D)
  | [] => []
  | Emission.sendTransform _ t :: es => t :: transforms es
  | _ :: es => transforms es

/-- The float stored at byte offset `k` of a buffer, when the buffer holds those four bytes. -/
def floatAt (data : List Byte) (k : Nat) : Option F32 :=
  match data.drop k with
  | b0 :: b1 :: b2 :: b3 :: _ => some ⟨wordOfBytes b0 b1 b2 b3⟩
  | _ => none

/-- The `uint32_t` stored at byte offset `k` of a buffer, when the buffer holds those four
bytes. -/
def wordAt (data : List Byte) (k : Nat) : Option Word32 :=
  match data.drop k with
  | b0 :: b1 :: b2 :: b3 :: _ => some (wordOfBytes b0 b1 b2 b3)
  | _ => none

/-- The five observed-servo-feedback values of the component. -/
def Component.feedback (s : Component) : List F32 :=
  [s.servoFeedback1_, s.servoFeedback2_, s.servoFeedback3_, s.servoFeedback4_,
   s.servoFeedback5_]

/-- The five commanded servo deltas of the component. -/
def Component.commanded (s : Component) : List F32 :=
  [s.servoInput1_, s.servoInput2_, s.servoInput3_, s.servoInput4_, s.servoInput5_]

/-- The inbound trigger made of a datagram, the memory after its buffer and the clock. -/
def inboundOf {D : Type} (p : UDPMsg × (Nat → Byte) × Nat) : Trigger D :=
  Trigger.inbound p.1 p.2.1 p.2.2

/-- Every transform has `world` as parent or a parent that an earlier transform of the list
introduced as its child; `known` are the frames introduced so far. -/
def parentsFirst {D : Type} (known : List String) : List (TransformStamped D) → Bool
  | [] => true
  | t :: ts =>
    (t.frame_id == "world" || known.contains t.frame_id)
      && parentsFirst (t.child_frame_id :: known) ts

/-! ## Sample inputs -/

/-- Uninterpreted doubles: a value is the term that produced it. -/
inductive Sym where
  | lit (q : ℚ)
  | ofFloat (f : F32)
  | neg (d : Sym)
  | rpy (component : Fin 4) (roll pitch yaw : Sym)
deriving DecidableEq, Repr

/-- The numerics that compute nothing: every operation builds its term. A delta converts to
the float it was made from (and to `0.0` when it was not made from a float). -/
def Sym.numerics : Numerics Sym :=
  { lit := Sym.lit, ofFloat := Sym.ofFloat,
    toFloat := fun d => match d with
      | Sym.ofFloat f => f
      | _ => F32.zero,
    neg := Sym.neg,
    setRPY := fun r p y => ⟨Sym.rpy 0 r p y, Sym.rpy 1 r p y, Sym.rpy 2 r p y, Sym.rpy 3 r p y⟩ }

/-- A freshly constructed component whose indeterminate members happen to be zero. -/
def sampleComponent : Component :=
  Component.constructed
    { t0_ := 0, servoInput := fun _ => F32.zero, servoFeedback := fun _ => F32.zero }

/-- A well-formed telemetry datagram: 52 bytes, byte `i` holding `i`. -/
def sampleFrame : UDPMsg := ⟨(List.range 52).map (fun i => Fin.ofNat i)⟩

/-- A datagram one byte short. -/
def shortFrame : UDPMsg := ⟨List.replicate 51 0⟩

/-- Memory after the buffer that reads as 0xAA. -/
def samplePast : Nat → Byte := fun _ => 170

/-- An upstream command with deltas made from the floats with bit patterns 1, 2, 3, 4. -/
def sampleCommand : ServosInput Sym :=
  ⟨fun i => ⟨Sym.ofFloat ⟨Fin.ofNat (i + 1)⟩⟩⟩

/-- The indeterminate members of the sample component: all zero. -/
def sampleIndeterminate : Indeterminate :=
  { t0_ := 0, servoInput := fun _ => F32.zero, servoFeedback := fun _ => F32.zero }

/-- Triggers in which accepted and rejected datagrams interleave with three commands. -/
def sampleTriggers : List (Trigger Sym) :=
  [Trigger.inbound sampleFrame samplePast 1, Trigger.outbound 5000000000 sampleCommand,
   Trigger.inbound shortFrame samplePast 2, Trigger.inbound sampleFrame samplePast 3,
   Trigger.outbound 6000000000 sampleCommand, Trigger.inbound sampleFrame samplePast 4,
   Trigger.outbound 7000000000 sampleCommand]

/-- A datagram one byte too long. -/
def longFrame : UDPMsg := ⟨List.replicate 53 0⟩

/-- A component whose cache holds recognisable floats: commanded delta k has bit pattern
10 + k, feedback value k has bit pattern 20 + k. -/
def cachedComponent : Component :=
  Component.constructed
    { t0_ := 1000000, servoInput := fun k => ⟨Fin.ofNat (11 + k.val)⟩,
      servoFeedback := fun k => ⟨Fin.ofNat (21 + k.val)⟩ }

/-- Datagrams, accepted and rejected, with no command between them. -/
def sampleInbound : List (UDPMsg × (Nat → Byte) × Nat) :=
  [(shortFrame, samplePast, 1), (sampleFrame, samplePast, 2), (longFrame, samplePast, 3)]

/-! ## Lemmas on bytes and loads -/

theorem bytesOfWord_wordOfBytes (b0 b1 b2 b3 : Byte) :
    bytesOfWord (wordOfBytes b0 b1 b2 b3) = [b0, b1, b2, b3] := by
  simp only [bytesOfWord, wordOfBytes, List.cons.injEq, and_true]
  refine ⟨Fin.ext ?_, Fin.ext ?_, Fin.ext ?_, Fin.ext ?_⟩ <;> simp only [] <;> omega

theorem range_map_byteAt (msg : UDPMsg) (past : Nat → Byte) :
    (List.range msg.data.length).map (byteAt msg past) = msg.data := by
  apply List.ext_getElem
  · simp
  · intro i h1 h2
    simp only [List.getElem_map, List.getElem_range, byteAt, List.get_eq_getElem]
    rw [dif_pos h2]

theorem byteAt_of_lt (msg : UDPMsg) (past : Nat → Byte) (i : Nat) (h : i < msg.data.length) :
    byteAt msg past i = msg.data.get ⟨i, h⟩ := by
  simp [byteAt, h]

theorem floatAt_eq_loadFloat (msg : UDPMsg) (past : Nat → Byte) (k : Nat)
    (h : k + 4 ≤ msg.data.length) : floatAt msg.data k = some (loadFloat msg past k) := by
  have e : msg.data.drop k = msg.data.get ⟨k, by omega⟩ :: msg.data.get ⟨k + 1, by omega⟩
      :: msg.data.get ⟨k + 2, by omega⟩ :: msg.data.get ⟨k + 3, by omega⟩
      :: msg.data.drop (k + 4) := by
    simp only [List.get_eq_getElem]
    rw [List.drop_eq_getElem_cons (by omega : k < msg.data.length),
      List.drop_eq_getElem_cons (by omega : k + 1 < msg.data.length),
      List.drop_eq_getElem_cons (by omega : k + 2 < msg.data.length),
      List.drop_eq_getElem_cons (by omega : k + 3 < msg.data.length)]
  simp only [floatAt, e, loadFloat]
  rw [byteAt_of_lt msg past k (by omega), byteAt_of_lt msg past (k + 1) (by omega),
    byteAt_of_lt msg past (k + 2) (by omega), byteAt_of_lt msg past (k + 3) (by omega)]

/-! ## The inbound handler -/

theorem udpCb_of_ne {D : Type} (N : Numerics D) (s : Component) (msg : UDPMsg)
    (past : Nat → Byte) (tNow : Nat) (h : msg.data.length ≠ msgLen) :
    udpCb N s msg past tNow =
      { state := s, thrown := some incorrectSize,
        log := [LogRecord.error msgLen msg.data.length], emitted := [], reads := [] } :=
  if_pos h

theorem readLocals_reads (msg : UDPMsg) (past : Nat → Byte) :
    (readLocals msg past).reader.reads = List.range 72 := by
  simp only [readLocals, read_floats, read_float, span4, List.nil_append, List.cons_append,
    List.append_assoc, Nat.zero_add, Nat.reduceAdd]
  rfl

theorem readLocals_telemetry (msg : UDPMsg) (past : Nat → Byte) :
    (readLocals msg past).telemetry =
      [loadFloat msg past 0, loadFloat msg past 4, loadFloat msg past 8, loadFloat msg past 12,
       loadFloat msg past 16, loadFloat msg past 20, loadFloat msg past 24,
       loadFloat msg past 28, loadFloat msg past 32, loadFloat msg past 36,
       loadFloat msg past 40, loadFloat msg past 44, loadFloat msg past 48] := by
  simp only [Locals.telemetry, readLocals, read_floats, read_float, List.nil_append,
    List.cons_append, Nat.zero_add, Nat.reduceAdd]

theorem udpCb_thrown {D : Type} (N : Numerics D) (s : Component) (msg : UDPMsg)
    (past : Nat → Byte) (tNow : Nat) (h : msg.data.length = 52) :
    (udpCb N s msg past tNow).thrown = none := by
  have h1 : ¬ msg.data.length ≠ msgLen := by simp [h, msgLen]
  unfold udpCb
  rw [if_neg h1]

theorem udpCb_reads {D : Type} (N : Numerics D) (s : Component) (msg : UDPMsg)
    (past : Nat → Byte) (tNow : Nat) (h : msg.data.length = 52) :
    (udpCb N s msg past tNow).reads = List.range 72 ++ List.range 52 := by
  have h1 : ¬ msg.data.length ≠ msgLen := by simp [h, msgLen]
  unfold udpCb
  rw [if_neg h1]
  simp only [span4, List.append_assoc, readLocals_reads, Nat.zero_add, Nat.reduceAdd,
    List.cons_append, List.nil_append]
  rfl

theorem udpCb_emitted {D : Type} (N : Numerics D) (s : Component) (msg : UDPMsg)
    (past : Nat → Byte) (tNow : Nat) (h : msg.data.length = 52) :
    (udpCb N s msg past tNow).emitted =
      [Emission.pubImu
         { stamp := tNow,
           linear_acceleration := ⟨N.ofFloat (loadFloat msg past 0),
             N.ofFloat (loadFloat msg past 4), N.ofFloat (loadFloat msg past 8)⟩,
           angular_velocity := ⟨N.ofFloat (loadFloat msg past 12),
             N.ofFloat (loadFloat msg past 16), N.ofFloat (loadFloat msg past 20)⟩,
           orientation := ⟨N.ofFloat (loadFloat msg past 24), N.ofFloat (loadFloat msg past 28),
             N.ofFloat (loadFloat msg past 32), N.ofFloat (loadFloat msg past 36)⟩ },
       Emission.pubDepth
         { stamp := tNow, depth := N.ofFloat (loadFloat msg past 40),
           temperature := N.ofFloat (loadFloat msg past 44) },
       Emission.pubLeak { stamp := tNow, leak := N.ofFloat (loadFloat msg past 48) },
       Emission.sendTransform Broadcaster.tf_broadBoat_
         { stamp := tNow, frame_id := "world", child_frame_id := "boat",
           translation := ⟨N.lit 0.0, N.lit 0.0, N.lit 0.25⟩,
           rotation := N.setRPY (N.lit 0) (N.lit 0) (N.lit 0) },
       Emission.sendTransform Broadcaster.tf_broadBody_
         { stamp := tNow, frame_id := "boat", child_frame_id := "paravane",
           translation := ⟨N.lit (-5.0), N.lit 0.0, N.neg (N.ofFloat (loadFloat msg past 40))⟩,
           rotation := ⟨N.ofFloat (loadFloat msg past 24), N.ofFloat (loadFloat msg past 28),
             N.ofFloat (loadFloat msg past 32), N.ofFloat (loadFloat msg past 36)⟩ },
       Emission.sendTransform Broadcaster.tf_broadBody_
         { stamp := tNow, frame_id := "paravane", child_frame_id := "main_wing",
           translation := ⟨N.lit 0.1, N.lit 0.0, N.lit 0.0⟩,
           rotation := N.setRPY (N.lit 0) (N.ofFloat s.servoInput1_) (N.lit 0) },
       Emission.sendTransform Broadcaster.tf_broadBody_
         { stamp := tNow, frame_id := "paravane", child_frame_id := "actuator1",
           translation := ⟨N.lit (-0.2), N.lit 0.0, N.lit 0.05⟩,
           rotation := N.setRPY (N.lit 0) (N.lit 0) (N.ofFloat s.servoFeedback2_) },
       Emission.sendTransform Broadcaster.tf_broadBody_
         { stamp := tNow, frame_id := "paravane", child_frame_id := "actuator2",
           translation := ⟨N.lit (-0.2), N.lit 0.02, N.lit (-0.035)⟩,
           rotation := N.setRPY (N.lit 0) (N.lit 0) (N.ofFloat s.servoFeedback3_) },
       Emission.sendTransform Broadcaster.tf_broadBody_
         { stamp := tNow, frame_id := "paravane", child_frame_id := "actuator3",
           translation := ⟨N.lit (-0.2), N.lit 0.02, N.lit (-0.035)⟩,
           rotation := N.setRPY (N.lit 0) (N.lit 0) (N.ofFloat s.servoFeedback4_) }] := by
  have h1 : ¬ msg.data.length ≠ msgLen := by simp [h, msgLen]
  unfold udpCb
  rw [if_neg h1]

/-- C1: a buffer whose length is not 52 makes `udpCb` throw the incorrect-size error (after
logging expected and received length), with nothing handed to the sink, no byte of the buffer
read, and the component state exactly as before. -/
theorem udpCb_rejects_wrong_length {D : Type} (N : Numerics D) (s : Component) (msg : UDPMsg)
    (past : Nat → Byte) (tNow : Nat) (h : msg.data.length ≠ 52) :
    (udpCb N s msg past tNow).thrown = some incorrectSize
      ∧ (udpCb N s msg past tNow).log = [LogRecord.error 52 msg.data.length]
      ∧ (udpCb N s msg past tNow).emitted = []
      ∧ (udpCb N s msg past tNow).reads = []
      ∧ (udpCb N s msg past tNow).state = s := by
  have h1 : msg.data.length ≠ msgLen := by simpa [msgLen] using h
  rw [udpCb_of_ne N s msg past tNow h1]
  exact ⟨rfl, rfl, rfl, rfl, rfl⟩

theorem udpCb_rejects_wrong_length_witness :
    (udpCb Sym.numerics sampleComponent shortFrame samplePast 0).thrown = some incorrectSize
      ∧ (udpCb Sym.numerics sampleComponent shortFrame samplePast 0).log
          = [LogRecord.error 52 shortFrame.data.length]
      ∧ (udpCb Sym.numerics sampleComponent shortFrame samplePast 0).emitted = []
      ∧ (udpCb Sym.numerics sampleComponent shortFrame samplePast 0).reads = []
      ∧ (udpCb Sym.numerics sampleComponent shortFrame samplePast 0).state = sampleComponent :=
  udpCb_rejects_wrong_length Sym.numerics sampleComponent shortFrame samplePast 0 (by decide)

/-- C2 (what the code does): on every 52-byte buffer `udpCb` does not throw, and among the
bytes it reads through `msg.data.data()` are all the indices 52 to 71, which lie past the end
of the buffer: the five `additional_data` floats. -/
theorem udpCb_reads_past_the_buffer {D : Type} (N : Numerics D) (s : Component) (msg : UDPMsg)
    (past : Nat → Byte) (tNow : Nat) (h : msg.data.length = 52) :
    (udpCb N s msg past tNow).thrown = none
      ∧ ∀ i, 52 ≤ i → i < 72 → i ∈ (udpCb N s msg past tNow).reads := by
  refine ⟨udpCb_thrown N s msg past tNow h, ?_⟩
  · intro i _ hi
    rw [udpCb_reads N s msg past tNow h]
    exact List.mem_append_left _ (List.mem_range.mpr hi)

theorem udpCb_reads_past_the_buffer_witness :
    sampleFrame.data.length = 52
      ∧ (udpCb Sym.numerics sampleComponent sampleFrame samplePast 0).thrown = none
      ∧ ∀ i, 52 ≤ i → i < 72 →
          i ∈ (udpCb Sym.numerics sampleComponent sampleFrame samplePast 0).reads :=
  ⟨by decide,
   udpCb_reads_past_the_buffer Sym.numerics sampleComponent sampleFrame samplePast 0 (by decide)⟩

/-- C3: for every 52-byte buffer, the thirteen floats `udpCb` decodes through `read_float`
(linear acceleration, angular velocity, quaternion, depth, temperature, leak), written back in
that order as 4-byte little-endian floats, are the 52 bytes of the buffer; and the scalar
fields of the published inertial, depth and leak messages are these thirteen floats, in that
order, each converted to the field type. -/
theorem udpCb_telemetry_roundtrip {D : Type} (N : Numerics D) (s : Component) (msg : UDPMsg)
    (past : Nat → Byte) (tNow : Nat) (h : msg.data.length = 52) :
    ((readLocals msg past).telemetry.map bytesOfFloat).flatten = msg.data
      ∧ ((udpCb N s msg past tNow).emitted.map Emission.scalars).flatten
          = (readLocals msg past).telemetry.map N.ofFloat := by
  constructor
  · have e := range_map_byteAt msg past
    rw [h] at e
    rw [readLocals_telemetry]
    simp only [List.map, List.flatten, bytesOfFloat, loadFloat, bytesOfWord_wordOfBytes,
      List.cons_append, List.nil_append, List.append_nil]
    exact e
  · rw [udpCb_emitted N s msg past tNow h, readLocals_telemetry]
    rfl

theorem udpCb_telemetry_roundtrip_witness :
    sampleFrame.data.length = 52
      ∧ ((readLocals sampleFrame samplePast).telemetry.map bytesOfFloat).flatten
          = sampleFrame.data
      ∧ ((udpCb Sym.numerics sampleComponent sampleFrame samplePast 0).emitted.map
            Emission.scalars).flatten
          = (readLocals sampleFrame samplePast).telemetry.map Sym.numerics.ofFloat :=
  ⟨by decide,
   udpCb_telemetry_roundtrip Sym.numerics sampleComponent sampleFrame samplePast 0 (by decide)⟩

/-! ## The outbound handler -/

theorem subServosInputCb_sent {D : Type} (N : Numerics D) (s : Component) (now_ns : Nat)
    (msg : ServosInput D) :
    (subServosInputCb N s now_ns msg).sent =
      bytesOfWord (time_ms now_ns s.t0_)
        ++ (bytesOfFloat (N.toFloat (msg.inputs 0).delta)
        ++ (bytesOfFloat (N.toFloat (msg.inputs 1).delta)
        ++ (bytesOfFloat (N.toFloat (msg.inputs 2).delta)
        ++ (bytesOfFloat (N.toFloat (msg.inputs 3).delta)
        ++ (bytesOfFloat F32.zero ++ bytesOfWord (wordOfBool s.sync_)))))) := by
  rfl

theorem subServosInputCb_state {D : Type} (N : Numerics D) (s : Component) (now_ns : Nat)
    (msg : ServosInput D) :
    (subServosInputCb N s now_ns msg).state =
      { s with
        servoInput1_ := N.toFloat (msg.inputs 0).delta,
        servoInput2_ := N.toFloat (msg.inputs 1).delta,
        servoInput3_ := N.toFloat (msg.inputs 2).delta,
        servoInput4_ := N.toFloat (msg.inputs 3).delta,
        servoInput5_ := F32.zero,
        sync_ := false } := by
  rfl

theorem length_bytesOfWord (w : Word32) : (bytesOfWord w).length = 4 := rfl

theorem length_bytesOfFloat (f : F32) : (bytesOfFloat f).length = 4 := rfl

theorem bytesOfWord_wordOfBool (b : Bool) :
    bytesOfWord (wordOfBool b) = if b then [1, 0, 0, 0] else [0, 0, 0, 0] := by
  cases b <;> rfl

theorem subServosInputCb_sync_field {D : Type} (N : Numerics D) (s : Component) (now_ns : Nat)
    (msg : ServosInput D) :
    field (subServosInputCb N s now_ns msg).sent 6 = bytesOfWord (wordOfBool s.sync_) := by
  rw [subServosInputCb_sent]
  rfl

theorem udpCb_state_sync {D : Type} (N : Numerics D) (s : Component) (msg : UDPMsg)
    (past : Nat → Byte) (tNow : Nat) : (udpCb N s msg past tNow).state.sync_ = s.sync_ := by
  unfold udpCb
  split <;> rfl

theorem frames_run_sync_clear {D : Type} (N : Numerics D) (ts : List (Trigger D)) :
    ∀ s : Component, s.sync_ = false →
      ∀ f ∈ frames (run N s ts).2, field f 6 = bytesOfWord 0 := by
  induction ts with
  | nil => intro s _ f hf; simp [run, frames] at hf
  | cons t ts ih =>
    intro s hs f hf
    cases t with
    | inbound msg past tNow =>
      simp only [run, step, frames] at hf
      exact ih _ (by rw [udpCb_state_sync, hs]) f hf
    | outbound now_ns msg =>
      simp only [run, step, frames, List.mem_cons] at hf
      rcases hf with hf | hf
      · rw [hf, subServosInputCb_sync_field, hs]
        rfl
      · exact ih _ (by rw [subServosInputCb_state]) f hf

theorem frames_run_sync_set {D : Type} (N : Numerics D) (ts : List (Trigger D)) :
    ∀ s : Component, s.sync_ = true → ∀ (i : Nat) (f : List Byte),
      (frames (run N s ts).2)[i]? = some f →
        field f 6 = bytesOfWord (if i = 0 then 1 else 0) := by
  induction ts with
  | nil => intro s _ i f hf; simp [run, frames] at hf
  | cons t ts ih =>
    intro s hs i f hf
    cases t with
    | inbound msg past tNow =>
      simp only [run, step, frames] at hf
      exact ih _ (by rw [udpCb_state_sync, hs]) i f hf
    | outbound now_ns msg =>
      simp only [run, step, frames] at hf
      cases i with
      | zero =>
        simp only [List.getElem?_cons_zero, Option.some.injEq] at hf
        rw [← hf, subServosInputCb_sync_field, hs]
        rfl
      | succ j =>
        simp only [List.getElem?_cons_succ] at hf
        have hmem : f ∈ frames (run N (subServosInputCb N s now_ns msg).state ts).2 :=
          List.getElem?_mem hf
        rw [frames_run_sync_clear N ts _ (by rw [subServosInputCb_state]) f hmem]
        simp

/-- C4: start from a freshly constructed component (whatever its indeterminate members hold)
and apply any finite sequence of inbound and outbound triggers. Of the command frames handed
to the transport, the first has sync field (bytes 24 to 27) 01 00 00 00, the value 1, and
every later one has sync field 00 00 00 00, wherever the inbound triggers fall. -/
theorem sync_only_in_first_frame {D : Type} (N : Numerics D) (u : Indeterminate)
    (ts : List (Trigger D)) (i : Nat) (f : List Byte)
    (h : (frames (run N (Component.constructed u) ts).2)[i]? = some f) :
    field f 6 = bytesOfWord (if i = 0 then 1 else 0) :=
  frames_run_sync_set N ts (Component.constructed u) rfl i f h

theorem sync_only_in_first_frame_witness :
    (frames (run Sym.numerics (Component.constructed sampleIndeterminate) sampleTriggers).2)[2]?
        = some [88, 27, 0, 0, 1, 0, 0, 0, 2, 0, 0, 0, 3, 0, 0, 0, 4, 0, 0, 0,
                0, 0, 0, 0, 0, 0, 0, 0]
      ∧ field [88, 27, 0, 0, 1, 0, 0, 0, 2, 0, 0, 0, 3, 0, 0, 0, 4, 0, 0, 0,
               0, 0, 0, 0, 0, 0, 0, 0] 6 = bytesOfWord (if 2 = 0 then 1 else 0) :=
  ⟨by decide,
   sync_only_in_first_frame Sym.numerics sampleIndeterminate sampleTriggers 2 _ (by decide)⟩

/-- C5: whatever the state (its parameters and `n_servos` included), the clock and the
command, the buffer passed to `sendMsg` has exactly 28 bytes, and its bytes 20 to 23 are the
bytes of the float `0.0`, four zero bytes. -/
theorem frame_length_and_reserved_channel {D : Type} (N : Numerics D) (s : Component)
    (now_ns : Nat) (msg : ServosInput D) :
    (subServosInputCb N s now_ns msg).sent.length = 28
      ∧ field (subServosInputCb N s now_ns msg).sent 5 = bytesOfFloat F32.zero
      ∧ bytesOfFloat F32.zero = [0, 0, 0, 0] := by
  rw [subServosInputCb_sent]
  exact ⟨rfl, rfl, rfl⟩

/-- C6 (as the code has it): bytes 24 to 27 of the command frame are the sync flag converted
to `uint32_t` and copied out little-endian: 01 00 00 00 when the flag is set, and the four
zero bytes, which are also the bytes of the float `0.0`, when it is clear. -/
theorem sync_field_is_uint32 {D : Type} (N : Numerics D) (s : Component) (now_ns : Nat)
    (msg : ServosInput D) :
    field (subServosInputCb N s now_ns msg).sent 6
        = (if s.sync_ then bytesOfWord 1 else bytesOfFloat F32.zero)
      ∧ bytesOfWord 1 = [1, 0, 0, 0] ∧ bytesOfFloat F32.zero = [0, 0, 0, 0] := by
  refine ⟨?_, rfl, rfl⟩
  rw [subServosInputCb_sync_field]
  cases s.sync_ <;> rfl

/-- C6 fails as stated: on the first command of a fresh component the sync flag is set, and
bytes 24 to 27 of the frame are 01 00 00 00, not the bytes 00 00 80 3F of the float `1.0`. -/
theorem sync_field_is_not_float_one :
    sampleComponent.sync_ = true
      ∧ field (subServosInputCb Sym.numerics sampleComponent 5000000000 sampleCommand).sent 6
          = [1, 0, 0, 0]
      ∧ bytesOfFloat F32.one = [0, 0, 128, 63]
      ∧ field (subServosInputCb Sym.numerics sampleComponent 5000000000 sampleCommand).sent 6
          ≠ bytesOfFloat F32.one := by
  decide

/-- C7: after an outbound trigger whose command carries the deltas d1 to d4 (in `inputs[0]`
to `inputs[3]`), the cached commanded deltas are d1, d2, d3, d4 converted to `float` and
`0.0` for the fifth, and bytes 4 to 19 of the frame sent are the 4-byte little-endian
encodings of those four floats in that order. -/
theorem servo_deltas_cached_and_sent {D : Type} (N : Numerics D) (s : Component) (now_ns : Nat)
    (msg : ServosInput D) :
    (subServosInputCb N s now_ns msg).state.servoInput1_ = N.toFloat (msg.inputs 0).delta
      ∧ (subServosInputCb N s now_ns msg).state.servoInput2_ = N.toFloat (msg.inputs 1).delta
      ∧ (subServosInputCb N s now_ns msg).state.servoInput3_ = N.toFloat (msg.inputs 2).delta
      ∧ (subServosInputCb N s now_ns msg).state.servoInput4_ = N.toFloat (msg.inputs 3).delta
      ∧ (subServosInputCb N s now_ns msg).state.servoInput5_ = F32.zero
      ∧ ((subServosInputCb N s now_ns msg).sent.drop 4).take 16
          = bytesOfFloat (N.toFloat (msg.inputs 0).delta)
            ++ bytesOfFloat (N.toFloat (msg.inputs 1).delta)
            ++ bytesOfFloat (N.toFloat (msg.inputs 2).delta)
            ++ bytesOfFloat (N.toFloat (msg.inputs 3).delta) := by
  refine ⟨rfl, rfl, rfl, rfl, rfl, ?_⟩
  rw [subServosInputCb_sent]
  rfl

/-! ## The transforms of an accepted frame -/

theorem udpCb_transforms {D : Type} (N : Numerics D) (s : Component) (msg : UDPMsg)
    (past : Nat → Byte) (tNow : Nat) (h : msg.data.length = 52) :
    transforms (udpCb N s msg past tNow).emitted =
      [{ stamp := tNow, frame_id := "world", child_frame_id := "boat",
         translation := ⟨N.lit 0.0, N.lit 0.0, N.lit 0.25⟩,
         rotation := N.setRPY (N.lit 0) (N.lit 0) (N.lit 0) },
       { stamp := tNow, frame_id := "boat", child_frame_id := "paravane",
         translation := ⟨N.lit (-5.0), N.lit 0.0, N.neg (N.ofFloat (loadFloat msg past 40))⟩,
         rotation := ⟨N.ofFloat (loadFloat msg past 24), N.ofFloat (loadFloat msg past 28),
           N.ofFloat (loadFloat msg past 32), N.ofFloat (loadFloat msg past 36)⟩ },
       { stamp := tNow, frame_id := "paravane", child_frame_id := "main_wing",
         translation := ⟨N.lit 0.1, N.lit 0.0, N.lit 0.0⟩,
         rotation := N.setRPY (N.lit 0) (N.ofFloat s.servoInput1_) (N.lit 0) },
       { stamp := tNow, frame_id := "paravane", child_frame_id := "actuator1",
         translation := ⟨N.lit (-0.2), N.lit 0.0, N.lit 0.05⟩,
         rotation := N.setRPY (N.lit 0) (N.lit 0) (N.ofFloat s.servoFeedback2_) },
       { stamp := tNow, frame_id := "paravane", child_frame_id := "actuator2",
         translation := ⟨N.lit (-0.2), N.lit 0.02, N.lit (-0.035)⟩,
         rotation := N.setRPY (N.lit 0) (N.lit 0) (N.ofFloat s.servoFeedback3_) },
       { stamp := tNow, frame_id := "paravane", child_frame_id := "actuator3",
         translation := ⟨N.lit (-0.2), N.lit 0.02, N.lit (-0.035)⟩,
         rotation := N.setRPY (N.lit 0) (N.lit 0) (N.ofFloat s.servoFeedback4_) }] := by
  rw [udpCb_emitted N s msg past tNow h]
  rfl

/-- C8: an accepted frame (52 bytes) makes `udpCb` send exactly six transforms, in this order,
with (parent, child) names (world, boat), (boat, paravane), (paravane, main_wing),
(paravane, actuator1), (paravane, actuator2), (paravane, actuator3); so each transform has
parent world or a parent that an earlier transform of the same call has as its child. -/
theorem six_transforms_parent_before_child {D : Type} (N : Numerics D) (s : Component)
    (msg : UDPMsg) (past : Nat → Byte) (tNow : Nat) (h : msg.data.length = 52) :
    (transforms (udpCb N s msg past tNow).emitted).map
        (fun t => (t.frame_id, t.child_frame_id))
        = [("world", "boat"), ("boat", "paravane"), ("paravane", "main_wing"),
           ("paravane", "actuator1"), ("paravane", "actuator2"), ("paravane", "actuator3")]
      ∧ parentsFirst [] (transforms (udpCb N s msg past tNow).emitted) = true := by
  rw [udpCb_transforms N s msg past tNow h]
  refine ⟨rfl, ?_⟩
  simp only [parentsFirst]
  decide

theorem six_transforms_parent_before_child_witness :
    sampleFrame.data.length = 52
      ∧ (transforms (udpCb Sym.numerics sampleComponent sampleFrame samplePast 0).emitted).map
          (fun t => (t.frame_id, t.child_frame_id))
          = [("world", "boat"), ("boat", "paravane"), ("paravane", "main_wing"),
             ("paravane", "actuator1"), ("paravane", "actuator2"), ("paravane", "actuator3")]
      ∧ parentsFirst []
          (transforms (udpCb Sym.numerics sampleComponent sampleFrame samplePast 0).emitted)
          = true :=
  ⟨by decide,
   six_transforms_parent_before_child Sym.numerics sampleComponent sampleFrame samplePast 0
     (by decide)⟩

/-- C9: for an accepted frame (52 bytes) the second transform sent is boat to paravane; its
translation is (-5, 0, -depth) with depth the float at byte offset 40 of the buffer, and its
rotation (x, y, z, w) is, component for component, the floats at byte offsets 24, 28, 32
and 36, with no other operation applied than the conversion to the field type. -/
theorem paravane_transform {D : Type} (N : Numerics D) (s : Component) (msg : UDPMsg)
    (past : Nat → Byte) (tNow : Nat) (h : msg.data.length = 52) :
    ∃ depth qx qy qz qw : F32,
      floatAt msg.data 40 = some depth
        ∧ floatAt msg.data 24 = some qx ∧ floatAt msg.data 28 = some qy
        ∧ floatAt msg.data 32 = some qz ∧ floatAt msg.data 36 = some qw
        ∧ (transforms (udpCb N s msg past tNow).emitted)[1]? =
            some { stamp := tNow, frame_id := "boat", child_frame_id := "paravane",
                   translation := ⟨N.lit (-5), N.lit 0, N.neg (N.ofFloat depth)⟩,
                   rotation := ⟨N.ofFloat qx, N.ofFloat qy, N.ofFloat qz, N.ofFloat qw⟩ } := by
  refine ⟨loadFloat msg past 40, loadFloat msg past 24, loadFloat msg past 28,
    loadFloat msg past 32, loadFloat msg past 36,
    floatAt_eq_loadFloat msg past 40 (by omega), floatAt_eq_loadFloat msg past 24 (by omega),
    floatAt_eq_loadFloat msg past 28 (by omega), floatAt_eq_loadFloat msg past 32 (by omega),
    floatAt_eq_loadFloat msg past 36 (by omega), ?_⟩
  rw [udpCb_transforms N s msg past tNow h]
  have e5 : ((-5.0 : ℚ)) = -5 := by norm_num
  have e0 : ((0.0 : ℚ)) = 0 := by norm_num
  simp only [List.getElem?_cons_succ, List.getElem?_cons_zero, e5, e0]

theorem paravane_transform_witness :
    sampleFrame.data.length = 52
      ∧ ∃ depth qx qy qz qw : F32,
        floatAt sampleFrame.data 40 = some depth
          ∧ floatAt sampleFrame.data 24 = some qx ∧ floatAt sampleFrame.data 28 = some qy
          ∧ floatAt sampleFrame.data 32 = some qz ∧ floatAt sampleFrame.data 36 = some qw
          ∧ (transforms (udpCb Sym.numerics sampleComponent sampleFrame samplePast 9).emitted)[1]?
              = some { stamp := 9, frame_id := "boat", child_frame_id := "paravane",
                       translation := ⟨Sym.numerics.lit (-5), Sym.numerics.lit 0,
                         Sym.numerics.neg (Sym.numerics.ofFloat depth)⟩,
                       rotation := ⟨Sym.numerics.ofFloat qx, Sym.numerics.ofFloat qy,
                         Sym.numerics.ofFloat qz, Sym.numerics.ofFloat qw⟩ } :=
  ⟨by decide,
   paravane_transform Sym.numerics sampleComponent sampleFrame samplePast 9 (by decide)⟩

/-- C10 (what the code does): for an accepted frame the fifth and sixth transforms sent are
paravane to actuator2 and paravane to actuator3, and both carry the same translation,
(-0.2, 0.02, -0.035), whatever the frame and the cache hold; the fourth, paravane to
actuator1, carries (-0.2, 0.0, 0.05). -/
theorem actuator2_actuator3_same_translation {D : Type} (N : Numerics D) (s : Component)
    (msg : UDPMsg) (past : Nat → Byte) (tNow : Nat) (h : msg.data.length = 52) :
    ∃ t1 t2 t3 : TransformStamped D,
      (transforms (udpCb N s msg past tNow).emitted)[3]? = some t1
        ∧ (transforms (udpCb N s msg past tNow).emitted)[4]? = some t2
        ∧ (transforms (udpCb N s msg past tNow).emitted)[5]? = some t3
        ∧ t1.child_frame_id = "actuator1" ∧ t2.child_frame_id = "actuator2"
        ∧ t3.child_frame_id = "actuator3"
        ∧ t1.translation = ⟨N.lit (-0.2), N.lit 0.0, N.lit 0.05⟩
        ∧ t2.translation = ⟨N.lit (-0.2), N.lit 0.02, N.lit (-0.035)⟩
        ∧ t3.translation = t2.translation := by
  rw [udpCb_transforms N s msg past tNow h]
  exact ⟨_, _, _, rfl, rfl, rfl, rfl, rfl, rfl, rfl, rfl, rfl⟩

theorem actuator2_actuator3_same_translation_witness :
    sampleFrame.data.length = 52
      ∧ ∃ t1 t2 t3 : TransformStamped Sym,
        (transforms (udpCb Sym.numerics sampleComponent sampleFrame samplePast 0).emitted)[3]?
            = some t1
          ∧ (transforms (udpCb Sym.numerics sampleComponent sampleFrame samplePast 0).emitted)[4]?
            = some t2
          ∧ (transforms (udpCb Sym.numerics sampleComponent sampleFrame samplePast 0).emitted)[5]?
            = some t3
          ∧ t1.child_frame_id = "actuator1" ∧ t2.child_frame_id = "actuator2"
          ∧ t3.child_frame_id = "actuator3"
          ∧ t1.translation
              = ⟨Sym.numerics.lit (-0.2), Sym.numerics.lit 0.0, Sym.numerics.lit 0.05⟩
          ∧ t2.translation
              = ⟨Sym.numerics.lit (-0.2), Sym.numerics.lit 0.02, Sym.numerics.lit (-0.035)⟩
          ∧ t3.translation = t2.translation :=
  ⟨by decide,
   actuator2_actuator3_same_translation Sym.numerics sampleComponent sampleFrame samplePast 0
     (by decide)⟩

/-! ## What the handlers leave unchanged -/

theorem udpCb_state_eq {D : Type} (N : Numerics D) (s : Component) (msg : UDPMsg)
    (past : Nat → Byte) (tNow : Nat) :
    (udpCb N s msg past tNow).state
      = { s with iter_ := (udpCb N s msg past tNow).state.iter_ } := by
  unfold udpCb
  split <;> rfl

theorem udpCb_state_of_eq {D : Type} (N : Numerics D) (s : Component) (msg : UDPMsg)
    (past : Nat → Byte) (tNow : Nat) (h : msg.data.length = 52) :
    (udpCb N s msg past tNow).state
      = { s with iter_ := (s.iter_ + 1) % 18446744073709551616 } := by
  have h1 : ¬ msg.data.length ≠ msgLen := by simp [h, msgLen]
  unfold udpCb
  rw [if_neg h1]

theorem udpCb_state_commanded {D : Type} (N : Numerics D) (s : Component) (msg : UDPMsg)
    (past : Nat → Byte) (tNow : Nat) :
    (udpCb N s msg past tNow).state.commanded = s.commanded := by
  rw [udpCb_state_eq]
  rfl

theorem udpCb_state_feedback {D : Type} (N : Numerics D) (s : Component) (msg : UDPMsg)
    (past : Nat → Byte) (tNow : Nat) :
    (udpCb N s msg past tNow).state.feedback = s.feedback := by
  rw [udpCb_state_eq]
  rfl

theorem run_inbound_commanded {D : Type} (N : Numerics D)
    (ins : List (UDPMsg × (Nat → Byte) × Nat)) :
    ∀ s : Component, (run N s (ins.map inboundOf)).1.commanded = s.commanded := by
  induction ins with
  | nil => intro s; rfl
  | cons p ins ih =>
    intro s
    simp only [List.map_cons, run, inboundOf, step]
    rw [ih, udpCb_state_commanded]

theorem run_feedback {D : Type} (N : Numerics D) (ts : List (Trigger D)) :
    ∀ s : Component, (run N s ts).1.feedback = s.feedback := by
  induction ts with
  | nil => intro s; rfl
  | cons t ts ih =>
    intro s
    cases t with
    | inbound msg past tNow =>
      simp only [run, step]
      rw [ih, udpCb_state_feedback]
    | outbound now_ns msg =>
      simp only [run, step]
      rw [ih, subServosInputCb_state]
      rfl

/-! ## Rotations from the cache, and the order of the emissions -/

/-- C11: for an accepted frame (52 bytes) and any cache, the third transform sent is paravane
to main_wing with translation (0.1, 0, 0) and rotation `setRPY(0, servoInput1_, 0)`, the
roll-pitch-yaw quaternion with pitch the commanded delta of channel 1; the fourth, fifth and
sixth are paravane to actuator1, actuator2, actuator3 with rotation
`setRPY(0, 0, servoFeedbackK_)` for K = 2, 3, 4. And after an outbound trigger whose command
has channel-1 delta d, the next accepted frame (whatever datagrams arrive in between) has
main_wing rotation `setRPY(0, d, 0)`, with d as the cache holds it, converted to `float`. -/
theorem rotations_from_cache {D : Type} (N : Numerics D) (s : Component) (msg : UDPMsg)
    (past : Nat → Byte) (tNow : Nat) (now_ns : Nat) (cmd : ServosInput D)
    (ins : List (UDPMsg × (Nat → Byte) × Nat)) (h : msg.data.length = 52) :
    (transforms (udpCb N s msg past tNow).emitted).drop 2 =
        [{ stamp := tNow, frame_id := "paravane", child_frame_id := "main_wing",
           translation := ⟨N.lit 0.1, N.lit 0, N.lit 0⟩,
           rotation := N.setRPY (N.lit 0) (N.ofFloat s.servoInput1_) (N.lit 0) },
         { stamp := tNow, frame_id := "paravane", child_frame_id := "actuator1",
           translation := ⟨N.lit (-0.2), N.lit 0, N.lit 0.05⟩,
           rotation := N.setRPY (N.lit 0) (N.lit 0) (N.ofFloat s.servoFeedback2_) },
         { stamp := tNow, frame_id := "paravane", child_frame_id := "actuator2",
           translation := ⟨N.lit (-0.2), N.lit 0.02, N.lit (-0.035)⟩,
           rotation := N.setRPY (N.lit 0) (N.lit 0) (N.ofFloat s.servoFeedback3_) },
         { stamp := tNow, frame_id := "paravane", child_frame_id := "actuator3",
           translation := ⟨N.lit (-0.2), N.lit 0.02, N.lit (-0.035)⟩,
           rotation := N.setRPY (N.lit 0) (N.lit 0) (N.ofFloat s.servoFeedback4_) }]
      ∧ (transforms (udpCb N
            (run N (subServosInputCb N s now_ns cmd).state (ins.map inboundOf)).1
            msg past tNow).emitted)[2]? =
          some { stamp := tNow, frame_id := "paravane", child_frame_id := "main_wing",
                 translation := ⟨N.lit 0.1, N.lit 0, N.lit 0⟩,
                 rotation :=
                   N.setRPY (N.lit 0) (N.ofFloat (N.toFloat (cmd.inputs 0).delta)) (N.lit 0) } := by
  have e0 : ((0.0 : ℚ)) = 0 := by norm_num
  constructor
  · rw [udpCb_transforms N s msg past tNow h]
    simp only [List.drop_succ_cons, List.drop_zero, e0]
  · have hc := run_inbound_commanded N ins (subServosInputCb N s now_ns cmd).state
    simp only [Component.commanded, List.cons.injEq] at hc
    rw [udpCb_transforms N _ msg past tNow h]
    simp only [List.getElem?_cons_succ, List.getElem?_cons_zero, e0, hc.1]
    rfl

theorem rotations_from_cache_witness :
    sampleFrame.data.length = 52
      ∧ (transforms (udpCb Sym.numerics cachedComponent sampleFrame samplePast 5).emitted).drop 2
        = [{ stamp := 5, frame_id := "paravane", child_frame_id := "main_wing",
             translation := ⟨Sym.lit 0.1, Sym.lit 0, Sym.lit 0⟩,
             rotation := Sym.numerics.setRPY (Sym.lit 0) (Sym.ofFloat ⟨11⟩) (Sym.lit 0) },
           { stamp := 5, frame_id := "paravane", child_frame_id := "actuator1",
             translation := ⟨Sym.lit (-0.2), Sym.lit 0, Sym.lit 0.05⟩,
             rotation := Sym.numerics.setRPY (Sym.lit 0) (Sym.lit 0) (Sym.ofFloat ⟨22⟩) },
           { stamp := 5, frame_id := "paravane", child_frame_id := "actuator2",
             translation := ⟨Sym.lit (-0.2), Sym.lit 0.02, Sym.lit (-0.035)⟩,
             rotation := Sym.numerics.setRPY (Sym.lit 0) (Sym.lit 0) (Sym.ofFloat ⟨23⟩) },
           { stamp := 5, frame_id := "paravane", child_frame_id := "actuator3",
             translation := ⟨Sym.lit (-0.2), Sym.lit 0.02, Sym.lit (-0.035)⟩,
             rotation := Sym.numerics.setRPY (Sym.lit 0) (Sym.lit 0) (Sym.ofFloat ⟨24⟩) }]
      ∧ (transforms (udpCb Sym.numerics
            (run Sym.numerics (subServosInputCb Sym.numerics cachedComponent 7 sampleCommand).state
              (sampleInbound.map inboundOf)).1
            sampleFrame samplePast 5).emitted)[2]? =
          some { stamp := 5, frame_id := "paravane", child_frame_id := "main_wing",
                 translation := ⟨Sym.lit 0.1, Sym.lit 0, Sym.lit 0⟩,
                 rotation := Sym.numerics.setRPY (Sym.lit 0) (Sym.ofFloat ⟨1⟩) (Sym.lit 0) } :=
  ⟨by decide,
   rotations_from_cache Sym.numerics cachedComponent sampleFrame samplePast 5 7 sampleCommand
     sampleInbound (by decide)⟩

/-- C12: for an accepted frame (52 bytes) the sink receives, in this order and nothing else:
the inertial message with linear acceleration, angular velocity and orientation (x, y, z, w)
from the floats at byte offsets 0, 4, ..., 36; the depth message with depth from offset 40
and temperature from offset 44; the leak message with leak from offset 48; then the six
transforms, the first through `tf_broadBoat_` and the others through `tf_broadBody_`. -/
theorem messages_then_transforms {D : Type} (N : Numerics D) (s : Component) (msg : UDPMsg)
    (past : Nat → Byte) (tNow : Nat) (h : msg.data.length = 52) :
    ∃ (f : Fin 13 → F32) (t : Fin 6 → TransformStamped D),
      (∀ k : Fin 13, floatAt msg.data (4 * k.val) = some (f k))
        ∧ (udpCb N s msg past tNow).emitted =
            [Emission.pubImu
               { stamp := tNow,
                 linear_acceleration := ⟨N.ofFloat (f 0), N.ofFloat (f 1), N.ofFloat (f 2)⟩,
                 angular_velocity := ⟨N.ofFloat (f 3), N.ofFloat (f 4), N.ofFloat (f 5)⟩,
                 orientation :=
                   ⟨N.ofFloat (f 6), N.ofFloat (f 7), N.ofFloat (f 8), N.ofFloat (f 9)⟩ },
             Emission.pubDepth
               { stamp := tNow, depth := N.ofFloat (f 10), temperature := N.ofFloat (f 11) },
             Emission.pubLeak { stamp := tNow, leak := N.ofFloat (f 12) },
             Emission.sendTransform Broadcaster.tf_broadBoat_ (t 0),
             Emission.sendTransform Broadcaster.tf_broadBody_ (t 1),
             Emission.sendTransform Broadcaster.tf_broadBody_ (t 2),
             Emission.sendTransform Broadcaster.tf_broadBody_ (t 3),
             Emission.sendTransform Broadcaster.tf_broadBody_ (t 4),
             Emission.sendTransform Broadcaster.tf_broadBody_ (t 5)]
        ∧ (List.ofFn t).map (fun x => (x.frame_id, x.child_frame_id))
            = [("world", "boat"), ("boat", "paravane"), ("paravane", "main_wing"),
               ("paravane", "actuator1"), ("paravane", "actuator2"),
               ("paravane", "actuator3")] := by
  refine ⟨fun k => loadFloat msg past (4 * k.val),
    fun i => (transforms (udpCb N s msg past tNow).emitted).getD i.val
      { stamp := 0, frame_id := "", child_frame_id := "",
        translation := ⟨N.lit 0, N.lit 0, N.lit 0⟩,
        rotation := ⟨N.lit 0, N.lit 0, N.lit 0, N.lit 0⟩ },
    fun k => floatAt_eq_loadFloat msg past (4 * k.val) (by omega), ?_, ?_⟩
  · rw [udpCb_transforms N s msg past tNow h, udpCb_emitted N s msg past tNow h]
    rfl
  · rw [udpCb_transforms N s msg past tNow h]
    rfl

theorem messages_then_transforms_witness :
    sampleFrame.data.length = 52
      ∧ ∃ (f : Fin 13 → F32) (t : Fin 6 → TransformStamped Sym),
        (∀ k : Fin 13, floatAt sampleFrame.data (4 * k.val) = some (f k))
          ∧ (udpCb Sym.numerics sampleComponent sampleFrame samplePast 3).emitted =
              [Emission.pubImu
                 { stamp := 3,
                   linear_acceleration :=
                     ⟨Sym.ofFloat (f 0), Sym.ofFloat (f 1), Sym.ofFloat (f 2)⟩,
                   angular_velocity :=
                     ⟨Sym.ofFloat (f 3), Sym.ofFloat (f 4), Sym.ofFloat (f 5)⟩,
                   orientation :=
                     ⟨Sym.ofFloat (f 6), Sym.ofFloat (f 7), Sym.ofFloat (f 8),
                      Sym.ofFloat (f 9)⟩ },
               Emission.pubDepth
                 { stamp := 3, depth := Sym.ofFloat (f 10), temperature := Sym.ofFloat (f 11) },
               Emission.pubLeak { stamp := 3, leak := Sym.ofFloat (f 12) },
               Emission.sendTransform Broadcaster.tf_broadBoat_ (t 0),
               Emission.sendTransform Broadcaster.tf_broadBody_ (t 1),
               Emission.sendTransform Broadcaster.tf_broadBody_ (t 2),
               Emission.sendTransform Broadcaster.tf_broadBody_ (t 3),
               Emission.sendTransform Broadcaster.tf_broadBody_ (t 4),
               Emission.sendTransform Broadcaster.tf_broadBody_ (t 5)]
          ∧ (List.ofFn t).map (fun x => (x.frame_id, x.child_frame_id))
              = [("world", "boat"), ("boat", "paravane"), ("paravane", "main_wing"),
                 ("paravane", "actuator1"), ("paravane", "actuator2"),
                 ("paravane", "actuator3")] :=
  ⟨by decide,
   messages_then_transforms Sym.numerics sampleComponent sampleFrame samplePast 3 (by decide)⟩

/-! ## The mutex -/

/-- C13 (what the code does): `subServosInputCb` makes every access to the actuator state with
`msgMtx_` held, but `udpCb` never takes the mutex: on an accepted frame (52 bytes) it reads
`servoInput1_`, `servoFeedback2_`, `servoFeedback3_` and `servoFeedback4_` with the mutex not
held. -/
theorem udpCb_reads_cache_without_mutex (msg : UDPMsg) (h : msg.data.length = 52) :
    unguarded false subServosInputCb_actions = []
      ∧ unguarded false (udpCb_actions msg)
          = [Action.read Member.servoInput1_, Action.read Member.servoFeedback2_,
             Action.read Member.servoFeedback3_, Action.read Member.servoFeedback4_]
      ∧ Action.lock ∉ udpCb_actions msg := by
  have h1 : ¬ msg.data.length ≠ msgLen := by simp [h, msgLen]
  unfold udpCb_actions
  rw [if_neg h1]
  decide

theorem udpCb_reads_cache_without_mutex_witness :
    sampleFrame.data.length = 52
      ∧ unguarded false subServosInputCb_actions = []
      ∧ unguarded false (udpCb_actions sampleFrame)
          = [Action.read Member.servoInput1_, Action.read Member.servoFeedback2_,
             Action.read Member.servoFeedback3_, Action.read Member.servoFeedback4_]
      ∧ Action.lock ∉ udpCb_actions sampleFrame :=
  ⟨by decide, udpCb_reads_cache_without_mutex sampleFrame (by decide)⟩

/-- C16 (as the code has it): `subServosInputCb` locks `msgMtx_` first, holds it at every
access and at the one call of `udp_->sendMsg`, and releases it as its last action, when the
function returns. -/
theorem mutex_held_for_whole_handler :
    subServosInputCb_actions.head? = some Action.lock
      ∧ subServosInputCb_actions.getLast? = some Action.unlock
      ∧ subServosInputCb_actions.count Action.lock = 1
      ∧ subServosInputCb_actions.count Action.unlock = 1
      ∧ heldAtSend false subServosInputCb_actions = [true]
      ∧ heldAfter false subServosInputCb_actions = false := by
  decide

/-- C16 fails as stated: it is not the case that the mutex has been released at every call
of `sendMsg` in `subServosInputCb`; at the only call it is held. -/
theorem mutex_not_released_before_sendMsg :
    ¬ (∀ b ∈ heldAtSend false subServosInputCb_actions, b = false) := by
  decide

/-! ## The timestamp -/

theorem wordAt_bytesOfWord (w : Word32) :
    wordAt (bytesOfWord w) 0 = some w := by
  simp only [wordAt, bytesOfWord, List.drop_zero, wordOfBytes, Option.some.injEq]
  apply Fin.ext
  simp only []
  omega

theorem subServosInputCb_time_field {D : Type} (N : Numerics D) (s : Component) (now_ns : Nat)
    (msg : ServosInput D) :
    field (subServosInputCb N s now_ns msg).sent 0 = bytesOfWord (time_ms now_ns s.t0_) := by
  rw [subServosInputCb_sent]
  rfl

theorem subServosInputCb_wordAt_zero {D : Type} (N : Numerics D) (s : Component) (now_ns : Nat)
    (msg : ServosInput D) :
    wordAt (subServosInputCb N s now_ns msg).sent 0 = some (time_ms now_ns s.t0_) := by
  have e := wordAt_bytesOfWord (time_ms now_ns s.t0_)
  rw [subServosInputCb_sent]
  simp only [wordAt, bytesOfWord, List.drop_zero, List.cons_append] at e ⊢
  exact e

theorem time_ms_val (now_ns t0 : Nat) (h0 : t0 ≤ now_ns) (h1 : now_ns < 18446744073709551616)
    (h2 : (now_ns - t0) / 1000000 < 4294967296) :
    (time_ms now_ns t0).val = (now_ns - t0) / 1000000 := by
  have e : (now_ns % 18446744073709551616 + 18446744073709551616 - t0 % 18446744073709551616)
      % 18446744073709551616 = now_ns - t0 := by omega
  simp only [time_ms, e]
  exact Nat.mod_eq_of_lt h2

/-- C14: for an outbound trigger at clock value `now_ns` (a 64-bit value) with
`t0_ ≤ now_ns` and `(now_ns - t0_) / 1000000` below 2^32, bytes 0 to 3 of the command frame
are the little-endian encoding of the `uint32_t` with value `(now_ns - t0_) / 1000000`, the
whole milliseconds elapsed since `t0_`. -/
theorem elapsed_ms_field {D : Type} (N : Numerics D) (s : Component) (now_ns : Nat)
    (msg : ServosInput D) (h0 : s.t0_ ≤ now_ns) (h1 : now_ns < 18446744073709551616)
    (h2 : (now_ns - s.t0_) / 1000000 < 4294967296) :
    field (subServosInputCb N s now_ns msg).sent 0
      = bytesOfWord ⟨(now_ns - s.t0_) / 1000000, h2⟩ := by
  rw [subServosInputCb_time_field]
  congr 1
  exact Fin.ext (time_ms_val now_ns s.t0_ h0 h1 h2)

theorem elapsed_ms_field_witness :
    field (subServosInputCb Sym.numerics cachedComponent 5001999999 sampleCommand).sent 0
      = bytesOfWord ⟨(5001999999 - cachedComponent.t0_) / 1000000, by decide⟩ :=
  elapsed_ms_field Sym.numerics cachedComponent 5001999999 sampleCommand (by decide) (by decide)
    (by decide)

/-- C15 (as the code has it): for two outbound triggers on the same `t0_` at clock values
`now1 ≤ now2` (64-bit values, both at least `t0_`), if the second lies less than 2^32
milliseconds after `t0_`, then the elapsed-time field of the second frame, read as a
`uint32_t`, is at least that of the first. -/
theorem elapsed_field_monotone_below_wrap {D : Type} (N : Numerics D) (s1 s2 : Component)
    (now1 now2 : Nat) (msg1 msg2 : ServosInput D) (ht : s2.t0_ = s1.t0_)
    (h0 : s1.t0_ ≤ now1) (h12 : now1 ≤ now2) (h1 : now2 < 18446744073709551616)
    (h2 : (now2 - s1.t0_) / 1000000 < 4294967296) :
    ∃ w1 w2 : Word32,
      wordAt (subServosInputCb N s1 now1 msg1).sent 0 = some w1
        ∧ wordAt (subServosInputCb N s2 now2 msg2).sent 0 = some w2
        ∧ w1.val ≤ w2.val := by
  refine ⟨_, _, subServosInputCb_wordAt_zero N s1 now1 msg1,
    subServosInputCb_wordAt_zero N s2 now2 msg2, ?_⟩
  have hq : (now1 - s1.t0_) / 1000000 ≤ (now2 - s1.t0_) / 1000000 :=
    Nat.div_le_div_right (by omega)
  rw [ht, time_ms_val now1 s1.t0_ h0 (by omega) (by omega),
    time_ms_val now2 s1.t0_ (by omega) h1 h2]
  exact hq

theorem elapsed_field_monotone_below_wrap_witness :
    ∃ w1 w2 : Word32,
      wordAt (subServosInputCb Sym.numerics sampleComponent 5000000000 sampleCommand).sent 0
          = some w1
        ∧ wordAt (subServosInputCb Sym.numerics
            (subServosInputCb Sym.numerics sampleComponent 5000000000 sampleCommand).state
            6000000000 sampleCommand).sent 0 = some w2
        ∧ w1.val ≤ w2.val :=
  elapsed_field_monotone_below_wrap Sym.numerics sampleComponent
    (subServosInputCb Sym.numerics sampleComponent 5000000000 sampleCommand).state
    5000000000 6000000000 sampleCommand sampleCommand rfl (by decide) (by decide) (by decide)
    (by decide)

/-- C15 fails as stated: with `t0_ = 0`, a command at 4294967295000000 ns carries the
elapsed-time field 4294967295 and the next command, at 4294967296000000 ns, carries 0: the
cast to `uint32_t` wraps after 2^32 milliseconds. -/
theorem elapsed_field_wraps :
    sampleComponent.t0_ ≤ 4294967295000000
      ∧ (4294967295000000 : Nat) ≤ 4294967296000000
      ∧ wordAt (subServosInputCb Sym.numerics sampleComponent 4294967295000000
            sampleCommand).sent 0 = some 4294967295
      ∧ wordAt (subServosInputCb Sym.numerics
            (subServosInputCb Sym.numerics sampleComponent 4294967295000000 sampleCommand).state
            4294967296000000 sampleCommand).sent 0 = some 0
      ∧ ¬ ((4294967295 : Word32).val ≤ (0 : Word32).val) := by
  decide

/-! ## Lengths from 52 to 71 -/

/-- C17 (as the code has it): the only buffer length L that passes the length check of
`udpCb` is L = 52, and then the handler reads bytes at the indices L to 71, past the end of
the buffer; a buffer of any other length, so also one with 52 < L < 72, is rejected with the
incorrect-size error before any byte is read. -/
theorem only_length_52_passes_validation {D : Type} (N : Numerics D) (s : Component)
    (msg : UDPMsg) (past : Nat → Byte) (tNow : Nat) :
    (msg.data.length = 52 →
        (udpCb N s msg past tNow).thrown = none
          ∧ ∀ i, msg.data.length ≤ i → i < 72 → i ∈ (udpCb N s msg past tNow).reads)
      ∧ (msg.data.length ≠ 52 →
        (udpCb N s msg past tNow).thrown = some incorrectSize
          ∧ (udpCb N s msg past tNow).reads = []) := by
  constructor
  · intro h
    refine ⟨udpCb_thrown N s msg past tNow h, ?_⟩
    intro i _ hi
    rw [udpCb_reads N s msg past tNow h]
    exact List.mem_append_left _ (List.mem_range.mpr hi)
  · intro h
    have h2 : msg.data.length ≠ msgLen := by simpa [msgLen] using h
    rw [udpCb_of_ne N s msg past tNow h2]
    exact ⟨rfl, rfl⟩

theorem only_length_52_passes_validation_witness :
    (longFrame.data.length = 52 →
        (udpCb Sym.numerics sampleComponent longFrame samplePast 0).thrown = none
          ∧ ∀ i, longFrame.data.length ≤ i → i < 72 →
              i ∈ (udpCb Sym.numerics sampleComponent longFrame samplePast 0).reads)
      ∧ (longFrame.data.length ≠ 52 →
        (udpCb Sym.numerics sampleComponent longFrame samplePast 0).thrown = some incorrectSize
          ∧ (udpCb Sym.numerics sampleComponent longFrame samplePast 0).reads = []) :=
  only_length_52_passes_validation Sym.numerics sampleComponent longFrame samplePast 0

/-- C17 fails as stated: a buffer of 53 bytes (52 ≤ 53 < 72) does not pass the length check;
`udpCb` throws the incorrect-size error and reads no byte of it. -/
theorem length_53_is_rejected :
    52 ≤ longFrame.data.length ∧ longFrame.data.length < 72
      ∧ (udpCb Sym.numerics sampleComponent longFrame samplePast 0).thrown = some incorrectSize
      ∧ (udpCb Sym.numerics sampleComponent longFrame samplePast 0).reads = [] := by
  decide

/-! ## The feedback values and the iteration counter -/

/-- C18: no trigger writes a feedback value. After any finite sequence of inbound and outbound
triggers the five feedback values are those of the state the sequence started from, and every
accepted frame (52 bytes) after it gets, for actuator1, actuator2 and actuator3, the rotations
`setRPY(0, 0, servoFeedbackK_)` with K = 2, 3, 4 taken from that starting state: they do not
depend on the bytes of the frame, on the memory after it, or on the triggers before. -/
theorem feedback_never_written {D : Type} (N : Numerics D) (s : Component)
    (ts : List (Trigger D)) :
    (run N s ts).1.feedback = s.feedback
      ∧ ∀ (msg : UDPMsg) (past : Nat → Byte) (tNow : Nat), msg.data.length = 52 →
          ((transforms (udpCb N (run N s ts).1 msg past tNow).emitted).drop 3).map
              (fun t => (t.child_frame_id, t.rotation))
            = [("actuator1", N.setRPY (N.lit 0) (N.lit 0) (N.ofFloat s.servoFeedback2_)),
               ("actuator2", N.setRPY (N.lit 0) (N.lit 0) (N.ofFloat s.servoFeedback3_)),
               ("actuator3", N.setRPY (N.lit 0) (N.lit 0) (N.ofFloat s.servoFeedback4_))] := by
  have hf := run_feedback N ts s
  refine ⟨hf, ?_⟩
  intro msg past tNow h
  simp only [Component.feedback, List.cons.injEq] at hf
  rw [udpCb_transforms N _ msg past tNow h]
  simp only [List.drop_succ_cons, List.drop_zero, List.map_cons, List.map_nil, hf.2.1,
    hf.2.2.1, hf.2.2.2.1]

theorem feedback_never_written_witness :
    (run Sym.numerics cachedComponent sampleTriggers).1.feedback = cachedComponent.feedback
      ∧ ((transforms (udpCb Sym.numerics (run Sym.numerics cachedComponent sampleTriggers).1
              sampleFrame samplePast 0).emitted).drop 3).map
            (fun t => (t.child_frame_id, t.rotation))
          = [("actuator1", Sym.numerics.setRPY (Sym.lit 0) (Sym.lit 0) (Sym.ofFloat ⟨22⟩)),
             ("actuator2", Sym.numerics.setRPY (Sym.lit 0) (Sym.lit 0) (Sym.ofFloat ⟨23⟩)),
             ("actuator3", Sym.numerics.setRPY (Sym.lit 0) (Sym.lit 0) (Sym.ofFloat ⟨24⟩))] :=
  ⟨(feedback_never_written Sym.numerics cachedComponent sampleTriggers).1,
   (feedback_never_written Sym.numerics cachedComponent sampleTriggers).2 sampleFrame samplePast
     0 (by decide)⟩

theorem udpCb_state_iter_le {D : Type} (N : Numerics D) (s : Component) (msg : UDPMsg)
    (past : Nat → Byte) (tNow : Nat) : (udpCb N s msg past tNow).state.iter_ ≤ s.iter_ + 1 := by
  unfold udpCb
  split
  · exact Nat.le_succ _
  · exact Nat.mod_le _ _

theorem run_iter_le {D : Type} (N : Numerics D) (ts : List (Trigger D)) :
    ∀ s : Component, (run N s ts).1.iter_ ≤ s.iter_ + ts.length := by
  induction ts with
  | nil => intro s; exact Nat.le_refl _
  | cons t ts ih =>
    intro s
    cases t with
    | inbound msg past tNow =>
      simp only [run, step, List.length_cons]
      have h1 := ih (udpCb N s msg past tNow).state
      have h2 := udpCb_state_iter_le N s msg past tNow
      omega
    | outbound now_ns msg =>
      simp only [run, step, List.length_cons]
      have h1 := ih (subServosInputCb N s now_ns msg).state
      have h2 : (subServosInputCb N s now_ns msg).state.iter_ = s.iter_ := rfl
      omega

/-- C19: in every state a run reaches (a freshly constructed component after any sequence of
fewer than 2^64 - 1 triggers), `udpCb` on a buffer that passes the length check leaves the
state as it was with only `iter_` changed, to `iter_ + 1`: the five commanded deltas, the five
feedback values, the sync flag and `t0_` are unchanged. The outbound trigger leaves `iter_`
and the feedback values unchanged. -/
theorem udpCb_changes_only_iter {D : Type} (N : Numerics D) (u : Indeterminate)
    (ts : List (Trigger D)) (msg : UDPMsg) (past : Nat → Byte) (tNow : Nat) (now_ns : Nat)
    (cmd : ServosInput D) (h : msg.data.length = 52)
    (hlen : ts.length < 18446744073709551615) :
    (udpCb N (run N (Component.constructed u) ts).1 msg past tNow).state
        = { (run N (Component.constructed u) ts).1 with
            iter_ := (run N (Component.constructed u) ts).1.iter_ + 1 }
      ∧ (udpCb N (run N (Component.constructed u) ts).1 msg past tNow).state.iter_
          = (run N (Component.constructed u) ts).1.iter_ + 1
      ∧ (udpCb N (run N (Component.constructed u) ts).1 msg past tNow).state.commanded
          = (run N (Component.constructed u) ts).1.commanded
      ∧ (udpCb N (run N (Component.constructed u) ts).1 msg past tNow).state.feedback
          = (run N (Component.constructed u) ts).1.feedback
      ∧ (udpCb N (run N (Component.constructed u) ts).1 msg past tNow).state.sync_
          = (run N (Component.constructed u) ts).1.sync_
      ∧ (udpCb N (run N (Component.constructed u) ts).1 msg past tNow).state.t0_
          = (run N (Component.constructed u) ts).1.t0_
      ∧ (subServosInputCb N (run N (Component.constructed u) ts).1 now_ns cmd).state.iter_
          = (run N (Component.constructed u) ts).1.iter_
      ∧ (subServosInputCb N (run N (Component.constructed u) ts).1 now_ns cmd).state.feedback
          = (run N (Component.constructed u) ts).1.feedback := by
  have hle := run_iter_le N ts (Component.constructed u)
  have h0 : (Component.constructed u).iter_ = 0 := rfl
  have hm : ((run N (Component.constructed u) ts).1.iter_ + 1) % 18446744073709551616
      = (run N (Component.constructed u) ts).1.iter_ + 1 :=
    Nat.mod_eq_of_lt (by omega)
  have e := udpCb_state_of_eq N (run N (Component.constructed u) ts).1 msg past tNow h
  rw [hm] at e
  refine ⟨e, by rw [e], by rw [e]; rfl, by rw [e]; rfl, by rw [e], by rw [e], rfl, rfl⟩

theorem udpCb_changes_only_iter_witness :
    sampleFrame.data.length = 52 ∧ sampleTriggers.length < 18446744073709551615
      ∧ (udpCb Sym.numerics (run Sym.numerics (Component.constructed sampleIndeterminate)
            sampleTriggers).1 sampleFrame samplePast 0).state
          = { (run Sym.numerics (Component.constructed sampleIndeterminate) sampleTriggers).1 with
              iter_ := (run Sym.numerics (Component.constructed sampleIndeterminate)
                sampleTriggers).1.iter_ + 1 }
      ∧ (udpCb Sym.numerics (run Sym.numerics (Component.constructed sampleIndeterminate)
            sampleTriggers).1 sampleFrame samplePast 0).state.iter_
          = (run Sym.numerics (Component.constructed sampleIndeterminate)
              sampleTriggers).1.iter_ + 1
      ∧ (udpCb Sym.numerics (run Sym.numerics (Component.constructed sampleIndeterminate)
            sampleTriggers).1 sampleFrame samplePast 0).state.commanded
          = (run Sym.numerics (Component.constructed sampleIndeterminate)
              sampleTriggers).1.commanded
      ∧ (udpCb Sym.numerics (run Sym.numerics (Component.constructed sampleIndeterminate)
            sampleTriggers).1 sampleFrame samplePast 0).state.feedback
          = (run Sym.numerics (Component.constructed sampleIndeterminate)
              sampleTriggers).1.feedback
      ∧ (udpCb Sym.numerics (run Sym.numerics (Component.constructed sampleIndeterminate)
            sampleTriggers).1 sampleFrame samplePast 0).state.sync_
          = (run Sym.numerics (Component.constructed sampleIndeterminate) sampleTriggers).1.sync_
      ∧ (udpCb Sym.numerics (run Sym.numerics (Component.constructed sampleIndeterminate)
            sampleTriggers).1 sampleFrame samplePast 0).state.t0_
          = (run Sym.numerics (Component.constructed sampleIndeterminate) sampleTriggers).1.t0_
      ∧ (subServosInputCb Sym.numerics (run Sym.numerics
            (Component.constructed sampleIndeterminate) sampleTriggers).1 9
            sampleCommand).state.iter_
          = (run Sym.numerics (Component.constructed sampleIndeterminate) sampleTriggers).1.iter_
      ∧ (subServosInputCb Sym.numerics (run Sym.numerics
            (Component.constructed sampleIndeterminate) sampleTriggers).1 9
            sampleCommand).state.feedback
          = (run Sym.numerics (Component.constructed sampleIndeterminate)
              sampleTriggers).1.feedback :=
  ⟨by decide, by decide,
   udpCb_changes_only_iter Sym.numerics sampleIndeterminate sampleTriggers sampleFrame samplePast
     0 9 sampleCommand (by decide) (by decide)⟩

/-! ## Parameter validation -/

/-- C20: `TeensyInterfaceParams::check_correctness` throws exactly when `n_servos < 1` or
`udp.teensy_ip` is empty or `udp.receive_buffer_size` is 0; the error is the one about
`n_servos` when `n_servos < 1`, else the one about `teensy_ip` when that is empty, else the
one about `receive_buffer_size`; and the default-constructed parameters (n_servos 2, ip
192.168.2.3, ports 1560 and 1561, buffer 1024) pass. -/
theorem check_correctness_spec (p : TeensyInterfaceParams) :
    ((∃ e, p.check_correctness = Except.error e)
        ↔ (p.n_servos < 1 ∨ p.udp.teensy_ip = "" ∨ p.udp.receive_buffer_size = 0))
      ∧ (p.n_servos < 1 →
          p.check_correctness = Except.error "n_servos parameter must be > 0.")
      ∧ (¬ p.n_servos < 1 → p.udp.teensy_ip = "" →
          p.check_correctness = Except.error "teensy_ip parameter must not be empty.")
      ∧ (¬ p.n_servos < 1 → p.udp.teensy_ip ≠ "" → p.udp.receive_buffer_size = 0 →
          p.check_correctness = Except.error "receive_buffer_size parameter must be > 0.")
      ∧ (¬ p.n_servos < 1 → p.udp.teensy_ip ≠ "" → p.udp.receive_buffer_size ≠ 0 →
          p.check_correctness = Except.ok ())
      ∧ ({} : TeensyInterfaceParams).check_correctness = Except.ok ()
      ∧ ({} : TeensyInterfaceParams)
          = { n_servos := 2,
              udp := { teensy_ip := "192.168.2.3", send_port := 1560, receive_port := 1561,
                       receive_buffer_size := 1024 } } := by
  refine ⟨?_, ?_, ?_, ?_, ?_, rfl, rfl⟩
  · unfold TeensyInterfaceParams.check_correctness TeensyUdpParams.check_correctness
    by_cases h1 : p.n_servos < 1
    · simp [h1]
    · by_cases h2 : p.udp.teensy_ip = ""
      · simp [h1, h2]
      · by_cases h3 : p.udp.receive_buffer_size = 0
        · simp [h1, h2, h3]
        · simp [h1, h2, h3]
  · intro h1
    simp [TeensyInterfaceParams.check_correctness, h1]
  · intro h1 h2
    simp [TeensyInterfaceParams.check_correctness, TeensyUdpParams.check_correctness, h1, h2]
  · intro h1 h2 h3
    simp [TeensyInterfaceParams.check_correctness, TeensyUdpParams.check_correctness, h1, h2,
      h3]
  · intro h1 h2 h3
    simp [TeensyInterfaceParams.check_correctness, TeensyUdpParams.check_correctness, h1, h2,
      h3]

end atl
